import Mathlib

/-!
Verification of the stint-time derivation and duration-aggregation engine of
`tt.py`, a personal time-tracking tool.

Shallow embedding conventions:
* Instants are rationals counting minutes since an epoch, UTC-normalized
  (Python stores timezone-aware datetimes normalized to UTC; `timedelta`
  arithmetic is exact, and all quantities in the claims are exact in ℚ).
* The caller's local timezone is a parameter `off : ℚ → ℚ` giving, for a
  local wall-clock minute count, the local offset from UTC in minutes
  (Python's `astimezone()` applied to a naive local datetime).
* Calendar dates are integers counting days since the epoch; a date `d`
  starts at local wall-clock minute `1440 * d`.
* The database session is a pure `Store` value; a `session_scope` block
  either commits all its mutations or none, which the embedding reflects by
  returning `Except Err (new store)`: an error leaves no mutated store.
* Python exceptions become the `Err` type below, keyed by exception class
  and message.
-/

/-- Python exception classes raised by the code, with their messages. -/
inductive Err where
  | valueError (msg : String)
  | runtimeError (msg : String)
  | attributeError (msg : String)
  | integrityError (msg : String)
deriving DecidableEq, Repr

/-- The `Stint` table row: a completed interval of work. `stop` embeds the
source's `end` column (`end` is a Lean keyword); instants are UTC minutes. -/
structure Stint where
  start : ℚ
  stop : ℚ
  project : String
  description : String
  comment : Option String
deriving DecidableEq, Repr

/-- The `Mark` table row: a single-use timestamp bookmark. `id` is the
primary key (used by `session.delete`). -/
structure Mark where
  id : Nat
  when : ℚ
deriving DecidableEq, Repr

/-- The database state: stint rows, mark rows, and the names of existing
projects (stints reference projects by name here; the integer foreign key
is glue). Lists are in insertion (rowid) order. -/
structure Store where
  stints : List Stint
  marks : List Mark
  projects : List String
deriving DecidableEq, Repr

/-- `combine_date_time(date, time)`: interpret wall-clock minute `t` of local
day `date` in the caller's local timezone and normalize to UTC.  Python looks
up the UTC offset in effect at that local wall time (`astimezone()`). -/
def combine_date_time (off : ℚ → ℚ) (date : Int) (t : ℚ) : ℚ :=
  ((1440 * date : Int) : ℚ) + t - off (((1440 * date : Int) : ℚ) + t)

/-- `ORDER BY end DESC ... first()` over a list of stints: the element with
the greatest `stop`, the earliest row winning ties (rowid order). -/
def pickLatestStint : List Stint → Option Stint
  | [] => none
  | s :: rest =>
    match pickLatestStint rest with
    | none => some s
    | some t => if s.stop < t.stop then some t else some s

/-- `ORDER BY when DESC ... first()` over a list of marks: the element with
the greatest `when`, the earliest row winning ties (rowid order). -/
def pickLatestMark : List Mark → Option Mark
  | [] => none
  | m :: rest =>
    match pickLatestMark rest with
    | none => some m
    | some t => if m.when < t.when then some t else some m

/-- `get_latest_stint(session)`: latest stint with `end <= now`, or `None`. -/
def get_latest_stint (now : ℚ) (store : Store) : Option Stint :=
  pickLatestStint (store.stints.filter (fun s => s.stop ≤ now))

/-- `get_latest_mark(session)`: latest mark strictly after the latest stint's
`end`.  The source dereferences `get_latest_stint(session).end` without a
`None` check, so an empty stint table raises `AttributeError`; an empty
qualifying-mark result raises `ValueError("No marks available.")`. -/
def get_latest_mark (now : ℚ) (store : Store) : Except Err Mark :=
  match get_latest_stint now store with
  | none => Except.error (Err.attributeError "NoneType object has no attribute end")
  | some st =>
    match pickLatestMark (store.marks.filter (fun m => st.stop < m.when)) with
    | none => Except.error (Err.valueError "No marks available.")
    | some m => Except.ok m

/-- The `add` command's request record, as parsed by click.  `date` always
has a value (the CLI defaults it to today); `end_time = none` is the default
`"now"`; times of day are wall-clock minutes; `duration` is minutes (a float
in the source, hence ℚ); `since_last` and `since_mark` are optional strings
(`"yes"` when passed as bare flags, `"force"` to override staleness). -/
structure Req where
  date : Int
  start_time : Option ℚ
  end_time : Option ℚ
  duration : Option ℚ
  since_last : Option String
  since_mark : Option String
  project_name : String
  new_project : Bool
  comment : Option String
  description : List String
deriving DecidableEq, Repr

/-- Python truthiness of an optional string option: `None` and `""` are
falsy. -/
def truthy : Option String → Bool
  | none => false
  | some s => s ≠ ""

/-- The origin-mode count of `add`: how many of `since_last`, `duration`,
`start_time`, `since_mark` were supplied (`is not None`). -/
def countModes (req : Req) : Nat :=
  [req.since_last.isSome, req.duration.isSome,
   req.start_time.isSome, req.since_mark.isSome].count true

/-- The staleness message of the `since_last` branch. -/
def staleLastMsg (t : ℚ) : String :=
  "Not using last as it is old (" ++ toString t ++ "). Pass --since_last=force to override."

/-- The staleness message of the `since_mark` branch. -/
def staleMarkMsg (t : ℚ) : String :=
  "Not using mark as it is old (" ++ toString t ++ "). Pass --since_mark=force to override."

/-- The `add` command.  `now` is `datetime.now(timezone.utc)` and `todayD` is
`today()` (the local date of the current instant). Returns the committed
store and the inserted stint, or the first exception raised; every
`session_scope` that fails commits nothing, which the `Except` result
reflects.  Geolocation (`get_location`) is external best-effort glue and is
omitted. -/
def add (off : ℚ → ℚ) (now : ℚ) (todayD : Int) (store : Store) (req : Req) :
    Except Err (Store × Stint) :=
  let endRes : Except Err ℚ :=
    match req.end_time with
    | none =>
      if req.date = todayD then Except.ok now
      else Except.error (Err.valueError "If you specify a date, you have to specify a time")
    | some t => Except.ok (combine_date_time off req.date t)
  match endRes with
  | Except.error e => Except.error e
  | Except.ok end_dt =>
    if countModes req ≠ 1 then
      Except.error (Err.valueError
        "One of --since_last, --since_mark, --start_time, and --duration must be specified")
    else
      let startRes : Except Err (ℚ × Option Mark) :=
        if truthy req.since_last then
          match get_latest_stint now store with
          | none => Except.error (Err.attributeError "NoneType object has no attribute end")
          | some prev =>
            if 120 < end_dt - prev.stop ∧ req.since_last ≠ some "force" then
              Except.error (Err.valueError (staleLastMsg prev.stop))
            else Except.ok (prev.stop, none)
        else
          match req.duration, req.start_time with
          | some dmin, none => Except.ok (end_dt - dmin, none)
          | none, some t => Except.ok (combine_date_time off req.date t, none)
          | _, _ =>
            if truthy req.since_mark then
              match get_latest_mark now store with
              | Except.error e => Except.error e
              | Except.ok m =>
                if 720 < now - m.when ∧ req.since_mark ≠ some "force" then
                  Except.error (Err.valueError (staleMarkMsg m.when))
                else Except.ok (m.when, some m)
            else Except.error (Err.runtimeError "Unreachable code reached, open an issue")
      match startRes with
      | Except.error e => Except.error e
      | Except.ok (start_dt, markToDelete) =>
        let projRes : Except Err Store :=
          if req.new_project then
            if req.project_name ∈ store.projects then
              Except.error (Err.integrityError "UNIQUE constraint failed: project.name")
            else Except.ok { store with projects := req.project_name :: store.projects }
          else Except.ok store
        match projRes with
        | Except.error e => Except.error e
        | Except.ok store1 =>
          if req.project_name ∈ store1.projects then
            let stint : Stint :=
              { start := start_dt, stop := end_dt, project := req.project_name,
                description := " ".intercalate req.description, comment := req.comment }
            Except.ok
              ({ store1 with
                  stints := store1.stints ++ [stint],
                  marks :=
                    match markToDelete with
                    | some m => store1.marks.filter (fun m2 => m2.id ≠ m.id)
                    | none => store1.marks },
                stint)
          else Except.error (Err.valueError ("No such project " ++ req.project_name))

/-- `date_limits(date)`: the UTC instant range of local day `date`.
`earliest` is local midnight normalized to UTC; `latest` is `earliest` plus
`timedelta(days=1)` — exactly 24 hours of absolute time, since Python adds
the timedelta to an aware instant with a fixed offset. -/
def date_limits (off : ℚ → ℚ) (date : Int) : ℚ × ℚ :=
  let earliest := combine_date_time off date 0
  (earliest, earliest + 1440)

/-- The day-overlap predicate of `stints_by_date`'s query:
`(start > earliest AND start < latest) OR (end > earliest AND end < latest)` —
strict comparisons on both sides. -/
def overlapsDay (earliest latest : ℚ) (s : Stint) : Bool :=
  (earliest < s.start && s.start < latest) || (earliest < s.stop && s.stop < latest)

/-- `stints_by_date(session, date)`: all stored stints selected by the
day-overlap predicate. -/
def stints_by_date (off : ℚ → ℚ) (store : Store) (date : Int) : List Stint :=
  let lims := date_limits off date
  store.stints.filter (overlapsDay lims.1 lims.2)

/-- `hours_by_date(session, date)`: total hours of the selected stints, each
clipped to `max(earliest, start) .. min(latest, end)`; minutes / 60 = the
source's `total_seconds() / 3600`. -/
def hours_by_date (off : ℚ → ℚ) (store : Store) (date : Int) : ℚ :=
  let lims := date_limits off date
  let durations := (stints_by_date off store date).map
    (fun s => min lims.2 s.stop - max lims.1 s.start)
  durations.sum / 60

/-- `date_range(start, end)`: the dates from `start` (inclusive) to `stop`
(exclusive), ascending; empty when `stop ≤ start` (`range` of a non-positive
count). -/
def date_range (start stop : Int) : List Int :=
  (List.range (stop - start).toNat).map (fun (n : Nat) => start + (n : Int))

/-- The range branch of the `hours` command: one `(date, hours_by_date date)`
entry per date of `date_range start stop`, in that order. -/
def hours_for_range (off : ℚ → ℚ) (store : Store) (start stop : Int) :
    List (Int × ℚ) :=
  (date_range start stop).map (fun d => (d, hours_by_date off store d))

/-! ## Helper lemmas -/

/-- `date_limits` under a constant (DST-free) timezone offset `c`. -/
theorem date_limits_const (c : ℚ) (d : Int) :
    date_limits (fun _ => c) d = (1440 * (d : ℚ) - c, 1440 * (d : ℚ) + 1440 - c) := by
  simp only [date_limits, combine_date_time, Prod.mk.injEq]
  constructor <;> push_cast <;> ring

/-- `combine_date_time` under a constant timezone offset `c`. -/
theorem combine_date_time_const (c : ℚ) (d : Int) (t : ℚ) :
    combine_date_time (fun _ => c) d t = 1440 * (d : ℚ) + t - c := by
  simp only [combine_date_time]
  push_cast
  ring

/-- A mark returned by `pickLatestMark` is in the searched list. -/
theorem pickLatestMark_mem : ∀ {l : List Mark} {m : Mark},
    pickLatestMark l = some m → m ∈ l := by
  intro l
  induction l with
  | nil => intro m h; simp [pickLatestMark] at h
  | cons a l ih =>
    intro m h
    simp only [pickLatestMark] at h
    cases hl : pickLatestMark l with
    | none =>
      simp only [hl] at h
      injection h with h
      exact h ▸ List.mem_cons_self _ _
    | some t =>
      simp only [hl] at h
      by_cases hw : a.when < t.when
      · rw [if_pos hw] at h
        injection h with h
        exact List.mem_cons_of_mem _ (h ▸ ih hl)
      · rw [if_neg hw] at h
        injection h with h
        exact h ▸ List.mem_cons_self _ _

/-- A mark returned by `get_latest_mark` is a stored mark. -/
theorem get_latest_mark_mem (now : ℚ) (store : Store) (m : Mark)
    (h : get_latest_mark now store = Except.ok m) : m ∈ store.marks := by
  unfold get_latest_mark at h
  cases hs : get_latest_stint now store with
  | none =>
    rw [hs] at h
    exact Except.noConfusion h
  | some st =>
    simp only [hs] at h
    cases hm : pickLatestMark (store.marks.filter (fun m2 => st.stop < m2.when)) with
    | none =>
      rw [hm] at h
      exact Except.noConfusion h
    | some m2 =>
      rw [hm] at h
      injection h with h
      exact List.mem_of_mem_filter (h ▸ pickLatestMark_mem hm)

/-! ## Claims -/

/-- C1, counterexample: an explicit-start request whose combined start
(14:00) is after its end (12:00) is accepted by `add` and stored as-is; no
malformed-interval failure occurs, contradicting the claim that `add` fails
whenever the computed start is at or after the computed end. -/
theorem C1_counterexample :
    add (fun _ => 0) 1000 0 { stints := [], marks := [], projects := ["p"] }
      { date := 0, start_time := some 840, end_time := some 720, duration := none,
        since_last := none, since_mark := none, project_name := "p",
        new_project := false, comment := none, description := ["w"] } =
      Except.ok
        ({ stints := [{ start := 840, stop := 720, project := "p",
                        description := "w", comment := none }],
           marks := [], projects := ["p"] },
         { start := 840, stop := 720, project := "p", description := "w",
           comment := none }) ∧
    (720 : ℚ) < 840 := by
  refine ⟨?_, by norm_num⟩
  norm_num [add, countModes, truthy, combine_date_time]
  rfl

/-- C1, amended: `add` performs no `start < end` re-validation.  An
explicit-start request whose combined start is at or after its combined end
still succeeds, and the stored stint carries the unvalidated pair unchanged
(its `end` at or before its `start`). -/
theorem C1_no_start_end_validation (off : ℚ → ℚ) (now : ℚ) (todayD : Int)
    (store : Store) (date : Int) (tStart tEnd : ℚ) (pname : String)
    (cmt : Option String) (desc : List String)
    (hp : pname ∈ store.projects)
    (hge : combine_date_time off date tEnd ≤ combine_date_time off date tStart) :
    ∃ out : Store × Stint,
      add off now todayD store
        { date := date, start_time := some tStart, end_time := some tEnd,
          duration := none, since_last := none, since_mark := none,
          project_name := pname, new_project := false, comment := cmt,
          description := desc } = Except.ok out ∧
      out.2.start = combine_date_time off date tStart ∧
      out.2.stop = combine_date_time off date tEnd ∧
      out.2.stop ≤ out.2.start := by
  refine ⟨({ store with
              stints := store.stints ++
                [{ start := combine_date_time off date tStart,
                   stop := combine_date_time off date tEnd, project := pname,
                   description := " ".intercalate desc, comment := cmt }] },
           { start := combine_date_time off date tStart,
             stop := combine_date_time off date tEnd, project := pname,
             description := " ".intercalate desc, comment := cmt }),
         ?_, rfl, rfl, hge⟩
  simp [add, countModes, truthy, hp]

/-- C1, witness for `C1_no_start_end_validation` at a concrete input. -/
theorem C1_no_start_end_validation_witness :
    ∃ out : Store × Stint,
      add (fun _ => 0) 1000 0 { stints := [], marks := [], projects := ["p"] }
        { date := 0, start_time := some 840, end_time := some 720,
          duration := none, since_last := none, since_mark := none,
          project_name := "p", new_project := false, comment := none,
          description := ["w"] } = Except.ok out ∧
      out.2.start = combine_date_time (fun _ => 0) 0 840 ∧
      out.2.stop = combine_date_time (fun _ => 0) 0 720 ∧
      out.2.stop ≤ out.2.start :=
  C1_no_start_end_validation (fun _ => 0) 1000 0
    { stints := [], marks := [], projects := ["p"] } 0 840 720 "p" none ["w"]
    (by simp) (by norm_num [combine_date_time])

/-- C2, counterexample: a stint starting exactly at the day window's
`earliest` (and ending after `latest`) has its start inside the claimed
half-open window `[earliest, latest)`, yet `stints_by_date` does not select
it — the query compares with strict `>` on both sides. -/
theorem C2_counterexample :
    ({ start := 0, stop := 2880, project := "p", description := "d",
       comment := none } : Stint) ∈
      ({ stints := [{ start := 0, stop := 2880, project := "p",
                      description := "d", comment := none }],
         marks := [], projects := ["p"] } : Store).stints ∧
    (date_limits (fun _ => 0) 0).1 ≤
      ({ start := 0, stop := 2880, project := "p", description := "d",
         comment := none } : Stint).start ∧
    ({ start := 0, stop := 2880, project := "p", description := "d",
       comment := none } : Stint).start < (date_limits (fun _ => 0) 0).2 ∧
    stints_by_date (fun _ => 0)
      { stints := [{ start := 0, stop := 2880, project := "p",
                     description := "d", comment := none }],
        marks := [], projects := ["p"] } 0 = [] := by
  refine ⟨by simp, ?_, ?_, ?_⟩
  · norm_num [date_limits, combine_date_time]
  · norm_num [date_limits, combine_date_time]
  · norm_num [stints_by_date, date_limits, combine_date_time, overlapsDay]

/-- C2, amended: a stored stint is selected by the day-overlap predicate iff
its start falls strictly inside `(earliest, latest)` or its end falls
strictly inside `(earliest, latest)` — both comparisons strict, so a stint
whose endpoint lies exactly on `earliest` does not count through that
endpoint; in particular a stint that starts at or before `earliest` and ends
at or after `latest` (fully containing the day) is never selected. -/
theorem C2_overlap_strict_iff (off : ℚ → ℚ) (store : Store) (date : Int)
    (st : Stint) :
    (st ∈ stints_by_date off store date ↔
      st ∈ store.stints ∧
        (((date_limits off date).1 < st.start ∧
            st.start < (date_limits off date).2) ∨
         ((date_limits off date).1 < st.stop ∧
            st.stop < (date_limits off date).2))) ∧
    (st.start ≤ (date_limits off date).1 → (date_limits off date).2 ≤ st.stop →
      st ∉ stints_by_date off store date) := by
  constructor
  · simp only [stints_by_date, List.mem_filter, overlapsDay, Bool.or_eq_true,
      Bool.and_eq_true, decide_eq_true_eq]
  · intro h1 h2 hmem
    simp only [stints_by_date, List.mem_filter, overlapsDay, Bool.or_eq_true,
      Bool.and_eq_true, decide_eq_true_eq] at hmem
    rcases hmem.2 with ⟨ha, _⟩ | ⟨_, hb⟩
    · exact absurd ha (not_lt.mpr h1)
    · exact absurd hb (not_lt.mpr h2)

/-- C6 (code bug): with an empty stint table, a `since_mark` request dies
with an `AttributeError` (the source dereferences
`get_latest_stint(session).end` on `None`) rather than the claimed
"no marks available" failure; the `ValueError("No marks available.")` path
is only reached when a completed stint exists but no qualifying mark does. -/
theorem C6_no_marks_error_paths :
    add (fun _ => 0) 1000 0 { stints := [], marks := [], projects := ["p"] }
      { date := 0, start_time := none, end_time := some 720, duration := none,
        since_last := none, since_mark := some "yes", project_name := "p",
        new_project := false, comment := none, description := ["w"] } =
      Except.error (Err.attributeError "NoneType object has no attribute end") ∧
    add (fun _ => 0) 1000 0
      { stints := [{ start := 0, stop := 100, project := "p",
                     description := "d", comment := none }],
        marks := [], projects := ["p"] }
      { date := 0, start_time := none, end_time := some 720, duration := none,
        since_last := none, since_mark := some "yes", project_name := "p",
        new_project := false, comment := none, description := ["w"] } =
      Except.error (Err.valueError "No marks available.") :=
  ⟨rfl, rfl⟩

/-- C9: for every local timezone-offset function and every calendar date,
`date_limits` returns the date's local midnight normalized to UTC as
`earliest` and exactly `earliest + 24` hours (1440 minutes) as `latest`. -/
theorem C9_date_limits_day_window (off : ℚ → ℚ) (d : Int) :
    (date_limits off d).1 = combine_date_time off d 0 ∧
    (date_limits off d).1 =
      ((1440 * d : Int) : ℚ) - off ((1440 * d : Int) : ℚ) ∧
    (date_limits off d).2 = (date_limits off d).1 + 1440 := by
  refine ⟨rfl, ?_, rfl⟩
  simp [date_limits, combine_date_time]

/-- C10 (code bug): a request with `since_mark` set to the empty string has
exactly one selected origin mode by the `is not None` count, yet `add`
raises `RuntimeError("Unreachable code reached, open an issue")`: the
dispatch tests Python truthiness, under which `""` is falsy. -/
theorem C10_unreachable_reached :
    countModes { date := 0, start_time := none, end_time := some 720,
                 duration := none, since_last := none, since_mark := some "",
                 project_name := "p", new_project := false, comment := none,
                 description := ["w"] } = 1 ∧
    add (fun _ => 0) 1000 0 { stints := [], marks := [], projects := ["p"] }
      { date := 0, start_time := none, end_time := some 720, duration := none,
        since_last := none, since_mark := some "", project_name := "p",
        new_project := false, comment := none, description := ["w"] } =
      Except.error (Err.runtimeError "Unreachable code reached, open an issue") :=
  ⟨rfl, rfl⟩

/-- C3: a stint from 23:00 local on day D to 01:00 local on day D+1 (the
only stored stint, constant timezone offset `c`) contributes exactly 1.0
hour to day D and exactly 1.0 hour to day D+1: `hours_by_date` clips each
selected stint to `max(earliest, start) .. min(latest, end)` before
summing. -/
theorem C3_midnight_straddle_split (c : ℚ) (D : Int) (st : Stint)
    (store : Store) (hs : store.stints = [st])
    (h1 : st.start = combine_date_time (fun _ => c) D 1380)
    (h2 : st.stop = combine_date_time (fun _ => c) (D + 1) 60) :
    hours_by_date (fun _ => c) store D = 1 ∧
    hours_by_date (fun _ => c) store (D + 1) = 1 := by
  rw [combine_date_time_const] at h1 h2
  push_cast at h2
  constructor
  · have hsel : stints_by_date (fun _ => c) store D = [st] := by
      simp only [stints_by_date, hs, List.filter_cons, List.filter_nil,
        date_limits_const]
      rw [if_pos]
      simp only [overlapsDay, Bool.or_eq_true, Bool.and_eq_true,
        decide_eq_true_eq]
      left
      constructor <;> [linarith [h1.ge, h1.le]; linarith [h1.le]]
    rw [hours_by_date, hsel, date_limits_const]
    simp only [List.map_cons, List.map_nil, List.sum_cons, List.sum_nil]
    rw [min_eq_left (by linarith), max_eq_right (by linarith)]
    rw [h1]
    ring_nf
  · have hsel : stints_by_date (fun _ => c) store (D + 1) = [st] := by
      simp only [stints_by_date, hs, List.filter_cons, List.filter_nil,
        date_limits_const]
      rw [if_pos]
      simp only [overlapsDay, Bool.or_eq_true, Bool.and_eq_true,
        decide_eq_true_eq]
      right
      push_cast
      constructor <;> linarith [h2.le, h2.ge]
    rw [hours_by_date, hsel, date_limits_const]
    simp only [List.map_cons, List.map_nil, List.sum_cons, List.sum_nil]
    push_cast
    rw [min_eq_right (by linarith), max_eq_left (by linarith)]
    rw [h2]
    ring_nf

/-- C3, witness for `C3_midnight_straddle_split`: offset 0, day 0, a stint
from minute 1380 (23:00) to minute 1500 (01:00 next day). -/
theorem C3_midnight_straddle_split_witness :
    hours_by_date (fun _ => (0 : ℚ))
      { stints := [{ start := 1380, stop := 1500, project := "p",
                     description := "d", comment := none }],
        marks := [], projects := ["p"] } 0 = 1 ∧
    hours_by_date (fun _ => (0 : ℚ))
      { stints := [{ start := 1380, stop := 1500, project := "p",
                     description := "d", comment := none }],
        marks := [], projects := ["p"] } (0 + 1) = 1 :=
  C3_midnight_straddle_split 0 0
    { start := 1380, stop := 1500, project := "p", description := "d",
      comment := none }
    { stints := [{ start := 1380, stop := 1500, project := "p",
                   description := "d", comment := none }],
      marks := [], projects := ["p"] }
    rfl (by norm_num [combine_date_time]) (by norm_num [combine_date_time])

/-- C5: in `since_last` mode with predecessor `prev`, if the resolved end
minus `prev`'s end exceeds 2 hours (120 minutes) and the flag value is not
`"force"`, `add` fails with the staleness `ValueError` naming `prev`'s end;
with `--since_last=force` it succeeds and the created stint starts exactly
at `prev`'s end — the same value the guard-free computation uses. -/
theorem C5_since_last_staleness_guard (off : ℚ → ℚ) (now : ℚ) (todayD : Int)
    (store : Store) (v : String) (date : Int) (tEnd : ℚ) (pname : String)
    (cmt : Option String) (desc : List String) (prev : Stint)
    (hv : v ≠ "")
    (hprev : get_latest_stint now store = some prev) :
    (120 < combine_date_time off date tEnd - prev.stop → v ≠ "force" →
      add off now todayD store
        { date := date, start_time := none, end_time := some tEnd,
          duration := none, since_last := some v, since_mark := none,
          project_name := pname, new_project := false, comment := cmt,
          description := desc } =
      Except.error (Err.valueError (staleLastMsg prev.stop))) ∧
    (v = "force" → pname ∈ store.projects →
      add off now todayD store
        { date := date, start_time := none, end_time := some tEnd,
          duration := none, since_last := some v, since_mark := none,
          project_name := pname, new_project := false, comment := cmt,
          description := desc } =
      Except.ok
        ({ store with stints := store.stints ++
            [{ start := prev.stop, stop := combine_date_time off date tEnd,
               project := pname, description := " ".intercalate desc,
               comment := cmt }] },
         { start := prev.stop, stop := combine_date_time off date tEnd,
           project := pname, description := " ".intercalate desc,
           comment := cmt })) := by
  constructor
  · intro hgap hforce
    simp [add, countModes, truthy, hprev, hv, hgap, hforce]
  · intro hf hp
    subst hf
    simp [add, countModes, truthy, hprev, hp]

/-- C5, witness for `C5_since_last_staleness_guard`: predecessor ending at
minute 100, end time resolving to minute 400 (gap 300 > 120). -/
theorem C5_since_last_staleness_guard_witness :
    ((120 : ℚ) < combine_date_time (fun _ => 0) 0 400 -
        ({ start := 0, stop := 100, project := "p", description := "d",
           comment := none } : Stint).stop → "yes" ≠ "force" →
      add (fun _ => 0) 1000 0
        { stints := [{ start := 0, stop := 100, project := "p",
                       description := "d", comment := none }],
          marks := [], projects := ["p"] }
        { date := 0, start_time := none, end_time := some 400,
          duration := none, since_last := some "yes", since_mark := none,
          project_name := "p", new_project := false, comment := none,
          description := ["w"] } =
      Except.error (Err.valueError (staleLastMsg
        ({ start := 0, stop := 100, project := "p", description := "d",
           comment := none } : Stint).stop))) ∧
    ("yes" = "force" → "p" ∈
        ({ stints := [{ start := 0, stop := 100, project := "p",
                        description := "d", comment := none }],
           marks := [], projects := ["p"] } : Store).projects →
      add (fun _ => 0) 1000 0
        { stints := [{ start := 0, stop := 100, project := "p",
                       description := "d", comment := none }],
          marks := [], projects := ["p"] }
        { date := 0, start_time := none, end_time := some 400,
          duration := none, since_last := some "yes", since_mark := none,
          project_name := "p", new_project := false, comment := none,
          description := ["w"] } =
      Except.ok
        ({ stints := [{ start := 0, stop := 100, project := "p",
                        description := "d", comment := none },
                      { start := ({ start := 0, stop := 100, project := "p",
                                    description := "d",
                                    comment := none } : Stint).stop,
                        stop := combine_date_time (fun _ => 0) 0 400,
                        project := "p", description := " ".intercalate ["w"],
                        comment := none }],
           marks := [], projects := ["p"] },
         { start := ({ start := 0, stop := 100, project := "p",
                       description := "d", comment := none } : Stint).stop,
           stop := combine_date_time (fun _ => 0) 0 400, project := "p",
           description := " ".intercalate ["w"], comment := none })) :=
  C5_since_last_staleness_guard (fun _ => 0) 1000 0
    { stints := [{ start := 0, stop := 100, project := "p",
                   description := "d", comment := none }],
      marks := [], projects := ["p"] }
    "yes" 0 400 "p" none ["w"]
    { start := 0, stop := 100, project := "p", description := "d",
      comment := none }
    (by decide) rfl

/-- C7: whenever the number of supplied origin modes differs from one, `add`
fails with a configuration `ValueError` (the origin-mode message, or the
date-with-"now" message that is checked just before it), and the outcome is
the same for every store: no storage is read or mutated and no start time is
resolved. -/
theorem C7_mode_count_config_error (off : ℚ → ℚ) (now : ℚ) (todayD : Int)
    (req : Req) (h : countModes req ≠ 1) :
    ∃ msg,
      (msg = "If you specify a date, you have to specify a time" ∨
       msg = "One of --since_last, --since_mark, --start_time, and --duration must be specified") ∧
      ∀ store, add off now todayD store req = Except.error (Err.valueError msg) := by
  cases hE : req.end_time with
  | none =>
    by_cases hD : req.date = todayD
    · exact ⟨_, Or.inr rfl, fun store => by simp [add, hE, hD, h]⟩
    · exact ⟨_, Or.inl rfl, fun store => by simp [add, hE, hD]⟩
  | some t =>
    exact ⟨_, Or.inr rfl, fun store => by simp [add, hE, h]⟩

/-- C7, witness for `C7_mode_count_config_error`: a request with zero origin
modes. -/
theorem C7_mode_count_config_error_witness :
    ∃ msg,
      (msg = "If you specify a date, you have to specify a time" ∨
       msg = "One of --since_last, --since_mark, --start_time, and --duration must be specified") ∧
      ∀ store, add (fun _ => 0) 1000 0 store
          { date := 0, start_time := none, end_time := some 720,
            duration := none, since_last := none, since_mark := none,
            project_name := "p", new_project := false, comment := none,
            description := ["w"] } = Except.error (Err.valueError msg) :=
  C7_mode_count_config_error (fun _ => 0) 1000 0
    { date := 0, start_time := none, end_time := some 720, duration := none,
      since_last := none, since_mark := none, project_name := "p",
      new_project := false, comment := none, description := ["w"] }
    (by decide)

/-- C8: `hours_for_range` yields exactly one entry per date of the half-open
range `[sd, ed)` (none when `ed ≤ sd`), in strictly ascending date order,
and a date whose overlap selection is empty gets the entry `(date, 0)`. -/
theorem C8_hours_for_range_days (off : ℚ → ℚ) (store : Store) (sd ed : Int) :
    (∀ d : Int,
      (d ∈ (hours_for_range off store sd ed).map Prod.fst ↔ sd ≤ d ∧ d < ed)) ∧
    List.Pairwise (fun p q : Int × ℚ => p.1 < q.1)
      (hours_for_range off store sd ed) ∧
    (∀ p ∈ hours_for_range off store sd ed,
      stints_by_date off store p.1 = [] → p.2 = 0) := by
  refine ⟨?_, ?_, ?_⟩
  · intro d
    simp only [hours_for_range, date_range, List.map_map, List.mem_map,
      Function.comp, List.mem_range]
    constructor
    · rintro ⟨n, hn, rfl⟩
      omega
    · rintro ⟨h1, h2⟩
      exact ⟨(d - sd).toNat, by omega, by omega⟩
  · simp only [hours_for_range, date_range, List.pairwise_map]
    exact (List.pairwise_lt_range _).imp (fun h => by omega)
  · intro p hp hnil
    simp only [hours_for_range, List.mem_map] at hp
    obtain ⟨d, _, rfl⟩ := hp
    simp [hours_by_date, hnil]

/-- C4: when `add` succeeds in `since_mark` mode having read mark `m`, the
single committed store both holds the inserted stint (whose start is
`m.when`) and no longer holds `m`: insertion and mark deletion happen in the
same `session_scope` transaction, so either both commit or (on any error,
which produces no store at all) neither does.  Afterwards `get_latest_mark`
can never return that mark again, for any current instant. -/
theorem C4_mark_consumed_atomically (off : ℚ → ℚ) (now : ℚ) (todayD : Int)
    (store : Store) (req : Req) (m : Mark) (store2 : Store) (st : Stint)
    (hmark : truthy req.since_mark = true)
    (hsl : req.since_last = none)
    (hdur : req.duration = none)
    (hst : req.start_time = none)
    (hm : get_latest_mark now store = Except.ok m)
    (hok : add off now todayD store req = Except.ok (store2, st)) :
    st ∈ store2.stints ∧ st.start = m.when ∧ m ∉ store2.marks ∧
    ∀ now2 m2, get_latest_mark now2 store2 = Except.ok m2 → m2.id ≠ m.id := by
  obtain ⟨s, hsm⟩ : ∃ s, req.since_mark = some s := by
    cases hc : req.since_mark with
    | none => rw [hc] at hmark; exact absurd hmark (by simp [truthy])
    | some s => exact ⟨s, rfl⟩
  have hcnt : countModes req = 1 := by
    simp [countModes, hsl, hdur, hst, hsm]
  have htl : truthy (none : Option String) = false := rfl
  by_cases hP : 720 < now - m.when ∧ req.since_mark ≠ some "force"
  · cases hE : req.end_time with
    | none =>
      by_cases hD : req.date = todayD <;>
        simp [add, hE, hD, hcnt, hsl, hdur, hst, htl, hmark, hm, hP] at hok
    | some t =>
      simp [add, hE, hcnt, hsl, hdur, hst, htl, hmark, hm, hP] at hok
  · cases hE : req.end_time with
    | none =>
      by_cases hD : req.date = todayD
      · simp [add, hE, hD, hcnt, hsl, hdur, hst, htl, hmark, hm, hP] at hok
        cases hnp : req.new_project with
        | true =>
          by_cases hpr : req.project_name ∈ store.projects
          · simp [hnp, hpr] at hok
          · simp [hnp, hpr] at hok
            obtain ⟨h1, h2⟩ := hok
            subst h1
            subst h2
            refine ⟨by simp, rfl, by simp, ?_⟩
            intro now2 m2 hm2
            have hmem := get_latest_mark_mem now2 _ m2 hm2
            simp only [List.mem_filter, Bool.not_eq_true',
              decide_eq_false_iff_not] at hmem
            exact hmem.2
        | false =>
          by_cases hpr : req.project_name ∈ store.projects
          · simp [hnp, hpr] at hok
            obtain ⟨h1, h2⟩ := hok
            subst h1
            subst h2
            refine ⟨by simp, rfl, by simp, ?_⟩
            intro now2 m2 hm2
            have hmem := get_latest_mark_mem now2 _ m2 hm2
            simp only [List.mem_filter, Bool.not_eq_true',
              decide_eq_false_iff_not] at hmem
            exact hmem.2
          · simp [hnp, hpr] at hok
      · simp [add, hE, hD, hcnt, hsl, hdur, hst, htl, hmark, hm, hP] at hok
    | some t =>
      simp [add, hE, hcnt, hsl, hdur, hst, htl, hmark, hm, hP] at hok
      cases hnp : req.new_project with
      | true =>
        by_cases hpr : req.project_name ∈ store.projects
        · simp [hnp, hpr] at hok
        · simp [hnp, hpr] at hok
          obtain ⟨h1, h2⟩ := hok
          subst h1
          subst h2
          refine ⟨by simp, rfl, by simp, ?_⟩
          intro now2 m2 hm2
          have hmem := get_latest_mark_mem now2 _ m2 hm2
          simp only [List.mem_filter, Bool.not_eq_true',
            decide_eq_false_iff_not] at hmem
          exact hmem.2
      | false =>
        by_cases hpr : req.project_name ∈ store.projects
        · simp [hnp, hpr] at hok
          obtain ⟨h1, h2⟩ := hok
          subst h1
          subst h2
          refine ⟨by simp, rfl, by simp, ?_⟩
          intro now2 m2 hm2
          have hmem := get_latest_mark_mem now2 _ m2 hm2
          simp only [List.mem_filter, Bool.not_eq_true',
            decide_eq_false_iff_not] at hmem
          exact hmem.2
        · simp [hnp, hpr] at hok

/-- C4, witness for `C4_mark_consumed_atomically`: one prior stint ending at
minute 100, one mark (id 1) at minute 200, `add --since_mark` at now = 400
with end 500. -/
theorem C4_mark_consumed_atomically_witness :
    (({ start := 200, stop := 500, project := "p", description := "w",
        comment := none } : Stint) ∈
      ({ stints := [{ start := 0, stop := 100, project := "p",
                      description := "d", comment := none },
                    { start := 200, stop := 500, project := "p",
                      description := "w", comment := none }],
         marks := [], projects := ["p"] } : Store).stints) ∧
    ({ start := 200, stop := 500, project := "p", description := "w",
       comment := none } : Stint).start =
      ({ id := 1, when := 200 } : Mark).when ∧
    ({ id := 1, when := 200 } : Mark) ∉
      ({ stints := [{ start := 0, stop := 100, project := "p",
                      description := "d", comment := none },
                    { start := 200, stop := 500, project := "p",
                      description := "w", comment := none }],
         marks := [], projects := ["p"] } : Store).marks ∧
    ∀ now2 m2,
      get_latest_mark now2
          { stints := [{ start := 0, stop := 100, project := "p",
                         description := "d", comment := none },
                       { start := 200, stop := 500, project := "p",
                         description := "w", comment := none }],
            marks := [], projects := ["p"] } = Except.ok m2 →
      m2.id ≠ ({ id := 1, when := 200 } : Mark).id :=
  C4_mark_consumed_atomically (fun _ => 0) 400 0
    { stints := [{ start := 0, stop := 100, project := "p",
                   description := "d", comment := none }],
      marks := [{ id := 1, when := 200 }], projects := ["p"] }
    { date := 0, start_time := none, end_time := some 500, duration := none,
      since_last := none, since_mark := some "yes", project_name := "p",
      new_project := false, comment := none, description := ["w"] }
    { id := 1, when := 200 }
    { stints := [{ start := 0, stop := 100, project := "p",
                   description := "d", comment := none },
                 { start := 200, stop := 500, project := "p",
                   description := "w", comment := none }],
      marks := [], projects := ["p"] }
    { start := 200, stop := 500, project := "p", description := "w",
      comment := none }
    rfl rfl rfl rfl
    rfl
    (by norm_num [add, countModes, truthy, combine_date_time, get_latest_mark,
      get_latest_stint, pickLatestStint, pickLatestMark]; rfl)
